import Mathlib

/-!
Verification of the Jellyseerr Home Assistant integration core: the
data-refresh / enrichment pipeline of
`custom_components/__init__.py` (the most complete snapshot of the
coordinator), the auto-approval switches of `switch.py`, and the batch
actions of `button.py` and the registered services.

Python dictionaries with optional keys are embedded as structures of
`Option` fields; Python truthiness of strings, numbers and lists is made
explicit in the helper functions below.  Fallible code returns `Except`.
-/

namespace Jellyseerr

/-! ## Python-semantics helpers -/

/-- Python `a or b` for an optional string `a` (absent or falsy `""` picks `b`). -/
def pyOr (a : Option String) (b : String) : String :=
  match a with
  | some s => if s = "" then b else s
  | none => b

/-- Python `d.get(k1) or d.get(k2)` for two optional strings. -/
def pyOrOpt (a b : Option String) : Option String :=
  match a with
  | some s => if s = "" then b else some s
  | none => b

/-- Python truthiness of an optional string (`None` and `""` are falsy). -/
def truthyS : Option String → Bool
  | some s => s != ""
  | none => false

/-- Python truthiness of an optional number (`None` and `0` are falsy). -/
def truthyN : Option Nat → Bool
  | some n => n != 0
  | none => false

/-! ## Data model (`RequestRecord` and its embedded media, detail responses) -/

/-- One entry of a `genres` array: a dict with an optional `name` key. -/
structure GenreObj where
  name : Option String := none
deriving DecidableEq, Repr

/-- The embedded `media` object of a request, as read by the coordinator.
Absent keys are `none`; both field-name spellings of the poster/backdrop
paths are separate keys, as in the JSON. -/
structure MediaObj where
  title : Option String := none
  name : Option String := none
  overview : Option String := none
  releaseDate : Option String := none
  firstAirDate : Option String := none
  voteAverage : Option ℚ := none
  runtime : Option Nat := none
  genres : Option (List GenreObj) := none
  posterPath : Option String := none
  poster_path : Option String := none
  backdropPath : Option String := none
  backdrop_path : Option String := none
  tmdbId : Option Nat := none
deriving DecidableEq, Repr

/-- Python truthiness of an optional list-valued key (`None` and `[]` falsy),
as in `if media.get("genres"):`. -/
def truthyGenres : Option (List GenreObj) → Bool
  | some l => !l.isEmpty
  | none => false

/-- One media request as returned by the list endpoint (`results[i]`).
`media = none` models an absent or empty (falsy) `media` dict;
`requestedBy` holds the nested `displayName` when present. -/
structure RequestRecord where
  id : Option Nat := none
  status : Option Nat := none
  type : Option String := none
  createdAt : Option String := none
  requestedBy : Option String := none
  media : Option MediaObj := none
deriving DecidableEq, Repr

/-- A detail-endpoint response body (`async_get_movie_details` result),
with both naming conventions for the image paths. -/
structure Details where
  title : Option String := none
  name : Option String := none
  overview : Option String := none
  release_date : Option String := none
  first_air_date : Option String := none
  vote_average : Option ℚ := none
  runtime : Option Nat := none
  genres : Option (List GenreObj) := none
  poster_path : Option String := none
  posterPath : Option String := none
  backdrop_path : Option String := none
  backdropPath : Option String := none
deriving DecidableEq, Repr

/-- The enriched `request_info` dict built by `_async_update_data`. -/
structure RequestInfo where
  id : Option Nat := none
  title : String := ""
  status : Nat := 0
  type : String := ""
  created_at : Option String := none
  requested_by : String := ""
  tmdb_id : Option Nat := none
  poster_url : Option String := none
  backdrop_url : Option String := none
  overview : String := ""
  release_date : String := ""
  genres : List String := []
  rating : ℚ := 0
  runtime : Nat := 0
  media_info : Option MediaObj := none
deriving DecidableEq, Repr

/-- `request.get("status", 0)`. -/
def statusOf (req : RequestRecord) : Nat :=
  req.status.getD 0

/-- `media.get("tmdbId")` where `media = request.get("media", {})`. -/
def tmdbIdOf (req : RequestRecord) : Option Nat :=
  match req.media with
  | some m => m.tmdbId
  | none => none

/-! ## Enrichment merger (`_async_update_data`, per-request body) -/

/-- The mutable locals of the per-request enrichment loop. -/
structure EnrichFields where
  title : String
  overview : String
  release_date : String
  rating : ℚ
  genres : List String
  poster_url : Option String
  backdrop_url : Option String
  runtime : Nat
deriving DecidableEq, Repr

/-- Poster URL taken from the embedded media object: checks `posterPath`
then `poster_path`, and builds the fixed-size CDN URL when truthy. -/
def posterUrlFromMedia (media : Option MediaObj) : Option String :=
  match media with
  | none => none
  | some m =>
    let pp := pyOrOpt m.posterPath m.poster_path
    if truthyS pp then some ("https://image.tmdb.org/t/p/w500" ++ pp.getD "") else none

/-- Backdrop URL taken from the embedded media object. -/
def backdropUrlFromMedia (media : Option MediaObj) : Option String :=
  match media with
  | none => none
  | some m =>
    let bp := pyOrOpt m.backdropPath m.backdrop_path
    if truthyS bp then some ("https://image.tmdb.org/t/p/original" ++ bp.getD "") else none

/-- The enrichment locals after the `if media:` block (initial defaults when
the media dict is absent or empty). -/
def mediaFields (media : Option MediaObj) : EnrichFields :=
  match media with
  | none =>
    { title := "Unknown", overview := "", release_date := "", rating := 0,
      genres := [], poster_url := none, backdrop_url := none, runtime := 0 }
  | some m =>
    { title := pyOr m.title (m.name.getD "Unknown")
      overview := m.overview.getD ""
      release_date := pyOr m.releaseDate (m.firstAirDate.getD "")
      rating := m.voteAverage.getD 0
      genres := if truthyGenres m.genres then (m.genres.getD []).map (fun g => g.name.getD "") else []
      poster_url := posterUrlFromMedia media
      backdrop_url := backdropUrlFromMedia media
      runtime := m.runtime.getD 0 }

/-- The `if details:` overlay block of the enrichment loop. -/
def applyDetails (f : EnrichFields) (d : Details) : EnrichFields :=
  let pp := pyOrOpt d.poster_path d.posterPath
  let bp := pyOrOpt d.backdrop_path d.backdropPath
  { title := pyOr d.title (d.name.getD f.title)
    overview := d.overview.getD f.overview
    release_date := pyOr d.release_date (d.first_air_date.getD f.release_date)
    rating := d.vote_average.getD f.rating
    genres := if truthyGenres d.genres then (d.genres.getD []).map (fun g => g.name.getD "") else f.genres
    poster_url := if truthyS pp then some ("https://image.tmdb.org/t/p/w500" ++ pp.getD "") else f.poster_url
    backdrop_url := if truthyS bp then some ("https://image.tmdb.org/t/p/original" ++ bp.getD "") else f.backdrop_url
    runtime := d.runtime.getD f.runtime }

/-- Builds the `request_info` dict from a request and the (optional) detail
response that was applied, mirroring the loop body of `_async_update_data`. -/
def enrichCore (req : RequestRecord) (fetched : Option Details) : RequestInfo :=
  let f0 := mediaFields req.media
  let f := match fetched with
    | some d => applyDetails f0 d
    | none => f0
  { id := req.id
    title := f.title
    status := statusOf req
    type := req.type.getD "movie"
    created_at := req.createdAt
    requested_by := req.requestedBy.getD "Unknown"
    tmdb_id := tmdbIdOf req
    poster_url := f.poster_url
    backdrop_url := f.backdrop_url
    overview := f.overview
    release_date := f.release_date
    genres := f.genres
    rating := f.rating
    runtime := f.runtime
    media_info := req.media }

/-- `if not poster_url and tmdb_id:` — whether the detail endpoint is hit. -/
def shouldFetch (req : RequestRecord) : Bool :=
  (posterUrlFromMedia req.media).isNone && truthyN (tmdbIdOf req)

/-- The detail-fetch oracle: what `async_get_movie_details tmdbId mediaType`
would return (`none` on any non-200 / timeout / transport failure). -/
abbrev Oracle := Nat → String → Option Details

/-- An oracle for a server returning no detail data. -/
def emptyOracle : Oracle := fun _ _ => none

/-- One request enriched; the second component records whether the detail
endpoint was called. -/
def enrichOne (oracle : Oracle) (req : RequestRecord) : RequestInfo × Bool :=
  let fetch := shouldFetch req
  (enrichCore req (if fetch then oracle ((tmdbIdOf req).getD 0) (req.type.getD "movie") else none),
   fetch)

/-- The enriched item of one request. -/
def infoOf (oracle : Oracle) (req : RequestRecord) : RequestInfo :=
  (enrichOne oracle req).1

/-- Truthy embedded poster path under either spelling, the condition of the
no-network fast path. -/
def hasEmbeddedPoster (req : RequestRecord) : Bool :=
  match req.media with
  | some m => truthyS (pyOrOpt m.posterPath m.poster_path)
  | none => false

/-! ## Base address construction (`JellyseerrAPI.__init__`) -/

/-- `s.startswith(p)`: character-wise prefix test. -/
def startsWithS (s p : String) : Bool :=
  p.data.isPrefixOf s.data

/-- `self._base_url` as computed by the API constructor. -/
def base_url (host : String) (port : Nat) (ssl : Bool) : String :=
  if startsWithS host "http://" || startsWithS host "https://" then
    host ++ "/api/v1"
  else
    let protocol := if ssl then "https" else "http"
    if ssl ∧ port = 443 then
      protocol ++ "://" ++ host ++ "/api/v1"
    else if ¬ssl ∧ port = 80 then
      protocol ++ "://" ++ host ++ "/api/v1"
    else
      protocol ++ "://" ++ host ++ ":" ++ toString port ++ "/api/v1"

/-- Modelled from the spec for comparison with `base_url`
(refinement: §4.1 `buildBaseAddress`): host with a scheme is used verbatim
plus the API path; otherwise `scheme://host[:port]/apiPath`, the port
omitted exactly when it equals the scheme's conventional default. -/
def specBuildBaseAddress (host : String) (port : Nat) (useTls : Bool) : String :=
  if startsWithS host "http://" || startsWithS host "https://" then
    host ++ "/api/v1"
  else
    let scheme := if useTls then "https" else "http"
    let conventional := if useTls then 443 else 80
    if port = conventional then
      scheme ++ "://" ++ host ++ "/api/v1"
    else
      scheme ++ "://" ++ host ++ ":" ++ toString port ++ "/api/v1"

/-! ## Remote service client (`async_get_requests`) -/

instance {ε α : Type} [DecidableEq ε] [DecidableEq α] : DecidableEq (Except ε α) := fun a b =>
  match a, b with
  | .ok x, .ok y =>
    match decEq x y with
    | isTrue h => isTrue (by rw [h])
    | isFalse h => isFalse (fun hc => h (by cases hc; rfl))
  | .ok _, .error _ => isFalse (fun hc => by cases hc)
  | .error _, .ok _ => isFalse (fun hc => by cases hc)
  | .error x, .error y =>
    match decEq x y with
    | isTrue h => isTrue (by rw [h])
    | isFalse h => isFalse (fun hc => h (by cases hc; rfl))

/-- The typed failures of the client: `service` models the base
`JellyseerrError` raised on an unexpected non-200 (the spec's
`ServiceError`), the other two the dedicated subclasses. -/
inductive JellyseerrFailure where
  | authentication (msg : String)
  | connection (msg : String)
  | service (msg : String)
deriving DecidableEq, Repr

/-- `str(err)` of a `JellyseerrFailure`. -/
def JellyseerrFailure.msg : JellyseerrFailure → String
  | .authentication m => m
  | .connection m => m
  | .service m => m

/-- `pageInfo` of the list response (only the `results` total is read). -/
structure PageInfo where
  results : Option Nat := none
deriving DecidableEq, Repr

/-- The parsed body of the list endpoint. -/
structure ApiData where
  results : Option (List RequestRecord) := none
  pageInfo : Option PageInfo := none
deriving DecidableEq, Repr

/-- What the HTTP layer produced for one `GET {base}/request` call. -/
inductive HttpOutcome where
  | response (status : Nat) (body : String) (payload : ApiData)
  | timeout
  | clientError (msg : String)
deriving DecidableEq, Repr

/-- `async_get_requests`: 401 is checked first, 200 returns the parsed
body, any other status raises the base error with only the status in its
message (the body is logged, not attached), timeout / transport failures
raise the connection error. -/
def async_get_requests (out : HttpOutcome) : Except JellyseerrFailure ApiData :=
  match out with
  | .response status _body payload =>
    if status = 401 then .error (.authentication "Invalid API key")
    else if status = 200 then .ok payload
    else .error (.service ("API returned " ++ toString status))
  | .timeout => .error (.connection "Connection timeout")
  | .clientError msg => .error (.connection msg)

/-! ## Refresh coordinator (`JellyseerrDataUpdateCoordinator._async_update_data`) -/

/-- Ordered-association-list lookup, the semantics of `d[k]` / `d.get(k)`
on a Python dict embedded as a key-value list in insertion order. -/
def alookup {β : Type} (k : Nat) : List (Nat × β) → Option β
  | [] => none
  | p :: ps => if p.1 = k then some p.2 else alookup k ps

/-- In-place assignment `d[k] = v` for an existing key. -/
def aupd {β : Type} (k : Nat) (v : β) : List (Nat × β) → List (Nat × β)
  | [] => []
  | p :: ps => if p.1 = k then (k, v) :: ps else p :: aupd k v ps

/-- `d[k] = d.get(k, 0) + 1` on a counting dict (appends a new key at the
end, as Python dicts preserve insertion order). -/
def dictIncr (d : List (Nat × Nat)) (k : Nat) : List (Nat × Nat) :=
  if (alookup k d).isSome then
    d.map (fun p => if p.1 = k then (p.1, p.2 + 1) else p)
  else
    d ++ [(k, 1)]

/-- `d.get(k, dflt)`. -/
def dictGetD (d : List (Nat × Nat)) (k dflt : Nat) : Nat :=
  (alookup k d).getD dflt

/-- The `status_counts` dict: one increment per request at its status. -/
def statusCounts (results : List RequestRecord) : List (Nat × Nat) :=
  results.foldl (fun d r => dictIncr d (statusOf r)) []

/-- The `detailed_requests_by_status` dict initialised for the five known
statuses. -/
def initBuckets : List (Nat × List RequestInfo) :=
  [(1, []), (2, []), (3, []), (4, []), (5, [])]

/-- A Python runtime error escaping the per-request loop. -/
inductive PyError where
  | keyError (k : Nat)
deriving DecidableEq, Repr

/-- `f"Unexpected error: {err}"` for a caught runtime error
(`str(KeyError(k))` is the repr of the key). -/
def PyError.msg : PyError → String
  | .keyError k => "Unexpected error: " ++ toString k

/-- One iteration of the per-request loop: enrich, append to the first-5
recent list, append to the status bucket while it holds fewer than 10
items — and raise `KeyError` when the status is not an initialised key. -/
def processOne (oracle : Oracle) (acc : List RequestInfo × List (Nat × List RequestInfo))
    (req : RequestRecord) :
    Except PyError (List RequestInfo × List (Nat × List RequestInfo)) :=
  let info := infoOf oracle req
  let s := statusOf req
  let recent := if acc.1.length < 5 then acc.1 ++ [info] else acc.1
  match alookup s acc.2 with
  | none => .error (PyError.keyError s)
  | some lst =>
    .ok (recent, if lst.length < 10 then aupd s (lst ++ [info]) acc.2 else acc.2)

/-- The `jellyseerr_new_requests` bus event payload. -/
structure BusEvent where
  count : Nat
  requests : List RequestInfo
deriving DecidableEq, Repr

/-- The dict returned by one successful `_async_update_data` run. -/
structure Snapshot where
  status_counts : List (Nat × Nat)
  total_requests : Nat
  recent_requests : List RequestInfo
  detailed_requests : List (Nat × List RequestInfo)
  page_info : PageInfo
  raw_results : List RequestRecord
deriving DecidableEq, Repr

/-- `raise UpdateFailed(msg)` surfaced to the host scheduler. -/
structure UpdateFailedE where
  msg : String
deriving DecidableEq, Repr

/-- Coordinator state across cycles: `self._last_pending_count`, and the
published snapshot. -/
structure CoordState where
  last_pending_count : Nat
  snapshot : Option Snapshot
deriving DecidableEq, Repr

/-- One refresh cycle.  `fetch` is what `async_get_requests` produced.
On a typed failure the cycle aborts with `UpdateFailed(str(err))`; on a
runtime error in the loop it aborts with the `except Exception` message.
Modelled from the spec: the host `DataUpdateCoordinator` (not under
`src/`) retains the previously published snapshot when the update raises
`UpdateFailed`, so the state carries the snapshot through unchanged on
every failing path. -/
def runUpdate (st : CoordState) (oracle : Oracle)
    (fetch : Except JellyseerrFailure (Option ApiData)) :
    CoordState × List BusEvent × Except UpdateFailedE Snapshot :=
  match fetch with
  | .error e => (st, [], .error ⟨e.msg⟩)
  | .ok none => (st, [], .error ⟨"Unexpected error: Error communicating with Jellyseerr API"⟩)
  | .ok (some data) =>
    let results := data.results.getD []
    let page_info := data.pageInfo.getD {}
    let sc := statusCounts results
    match results.foldlM (processOne oracle) ([], initBuckets) with
    | .error pe => (st, [], .error ⟨pe.msg⟩)
    | .ok (recent, buckets) =>
      let current := dictGetD sc 1 0
      let events :=
        if st.last_pending_count < current then
          [{ count := current - st.last_pending_count,
             requests := ((alookup 1 buckets).getD []).take (current - st.last_pending_count) }]
        else []
      let snap : Snapshot :=
        { status_counts := sc
          total_requests := page_info.results.getD 0
          recent_requests := recent
          detailed_requests := buckets
          page_info := page_info
          raw_results := results }
      ({ last_pending_count := current, snapshot := some snap }, events, .ok snap)

/-! ## Batch approve (`async_batch_approve` service, `button.py`) -/

/-- The per-id results list built by the batch-approve service loop:
every id is attempted, in order, regardless of earlier failures. -/
def batchApproveRun (approve : Nat → Bool) : List Nat → List (Nat × Bool)
  | [] => []
  | i :: rest => (i, approve i) :: batchApproveRun approve rest

/-- `failed = [r["id"] for r in results if not r["success"]]`. -/
def batchFailed (results : List (Nat × Bool)) : List Nat :=
  (results.filter (fun p => !p.2)).map (fun p => p.1)

/-- The approve-all button loop over the current Pending bucket:
`(approved_count, failed_count)`, every item attempted. -/
def buttonApproveAll (approveOk : Option Nat → Bool) : List RequestInfo → Nat × Nat
  | [] => (0, 0)
  | r :: rest =>
    let acc := buttonApproveAll approveOk rest
    if approveOk r.id then (acc.1 + 1, acc.2) else (acc.1, acc.2 + 1)

/-! ## Auto-approval switches (`switch.py`) -/

/-- Operations on an auto-approval switch: service turn-on / turn-off and
entity teardown (`async_will_remove_from_hass`). -/
inductive Op where
  | turnOn
  | turnOff
  | teardown
deriving DecidableEq, Repr

/-- Switch state: `_is_on`, the stored `_unsubscribe` handle, a counter
giving fresh listener ids, and the set of listeners currently registered
on the event bus (as an ordered list). -/
structure SwitchState where
  is_on : Bool
  handle : Option Nat
  nextId : Nat
  active : List Nat
deriving DecidableEq, Repr

/-- `_start_monitoring`: registers a new bus listener and overwrites the
stored unsubscribe handle. -/
def startMonitoring (s : SwitchState) : SwitchState :=
  { s with handle := some s.nextId, active := s.active ++ [s.nextId], nextId := s.nextId + 1 }

/-- `_stop_monitoring`: unsubscribes the stored handle, if any. -/
def stopMonitoring (s : SwitchState) : SwitchState :=
  match s.handle with
  | some h => { s with handle := none, active := s.active.filter (fun x => x ≠ h) }
  | none => s

/-- One switch operation. -/
def applyOp (s : SwitchState) : Op → SwitchState
  | .turnOn => startMonitoring { s with is_on := true }
  | .turnOff => stopMonitoring { s with is_on := false }
  | .teardown => stopMonitoring s

/-- Runs a sequence of switch operations. -/
def runOps (s : SwitchState) (ops : List Op) : SwitchState :=
  ops.foldl applyOp s

/-- The freshly created switch. -/
def initSwitch : SwitchState :=
  { is_on := false, handle := none, nextId := 0, active := [] }

/-- Checks that `turnOn` is only ever invoked while no subscribe handle is
held (no re-enable of an already-monitoring switch). -/
def guardedOps : SwitchState → List Op → Bool
  | _, [] => true
  | s, Op.turnOn :: rest => s.handle.isNone && guardedOps (applyOp s Op.turnOn) rest
  | s, op :: rest => guardedOps (applyOp s op) rest

/-! ## Rating rule (`JellyseerrHighRatedAutoApprovalSwitch._process_new_requests`) -/

/-- An `jellyseerr_auto_approved` audit event. -/
structure AuditEvent where
  request : RequestInfo
  reason : String
deriving DecidableEq, Repr

/-- The high-rated rule handler: for each event item with
`rating >= threshold`, call approve; on success fire the audit event.
Returns the items for which approve was attempted, and the audit events. -/
def processHighRated (threshold : ℚ) (approveOk : Option Nat → Bool) :
    List RequestInfo → List RequestInfo × List AuditEvent
  | [] => ([], [])
  | r :: rs =>
    let rest := processHighRated threshold approveOk rs
    if threshold ≤ r.rating then
      (r :: rest.1,
       if approveOk r.id then
         { request := r, reason := "High rating (" ++ toString r.rating ++ ")" } :: rest.2
       else rest.2)
    else rest

/-! ## Derived views of the refresh results -/

/-- The enriched items of the Pending (status 1) requests, in server order. -/
def pendingOf (oracle : Oracle) (data : ApiData) : List RequestInfo :=
  ((data.results.getD []).filter (fun r => decide (statusOf r = 1))).map (infoOf oracle)

/-- The number of Pending requests in the fetched page. -/
def pendingCountOf (data : ApiData) : Nat :=
  ((data.results.getD []).filter (fun r => decide (statusOf r = 1))).length

/-- The switch invariant tying the bus-listener list to the stored handle. -/
def consistentSwitch (s : SwitchState) : Prop :=
  s.active = s.handle.elim [] (fun h => [h])

/-! ## Concrete sample inputs -/

/-- A request whose status 7 is outside the five known values. -/
def unknownStatusRequest : RequestRecord := { id := some 1, status := some 7 }

/-- A fetched page containing one unknown-status request. -/
def unknownStatusData : ApiData :=
  { results := some [unknownStatusRequest], pageInfo := some { results := some 1 } }

/-- A request whose embedded media has an empty-string `name` and no `title`. -/
def emptyNameRequest : RequestRecord := { media := some { name := some "" } }

/-- A request with an embedded title. -/
def titledRequest : RequestRecord := { media := some { title := some "Inception" } }

/-- A request whose embedded media already carries a poster path (and a
tmdb id, so a detail fetch would be possible). -/
def posterRequest : RequestRecord :=
  { media := some { posterPath := some "/p.jpg", tmdbId := some 42 } }

/-- An oracle for a server answering every detail fetch. -/
def someDetailsOracle : Oracle :=
  fun _ _ => some { title := some "Fetched Title", poster_path := some "/q.jpg" }

/-- A fetched page with eleven Pending requests. -/
def pend11Data : ApiData :=
  { results := some ((List.range 11).map (fun i => { id := some i, status := some 1 })),
    pageInfo := some { results := some 11 } }

/-- A fetched page with two Pending requests. -/
def pendTwoData : ApiData :=
  { results := some [{ id := some 1, status := some 1 }, { id := some 2, status := some 1 }],
    pageInfo := some { results := some 2 } }

/-- An enriched item rated 7.5 (`mkRat 15 2`). -/
def item75 : RequestInfo := { id := some 1, rating := mkRat 15 2 }

/-- An enriched item rated 7.49 (`mkRat 749 100`). -/
def item749 : RequestInfo := { id := some 2, rating := mkRat 749 100 }

/-! ## Helper lemmas -/

theorem pyOr_ne_empty (a : Option String) (b : String) (ha : a ≠ some "") (hb : b ≠ "") :
    pyOr a b ≠ "" := by
  unfold pyOr
  cases a with
  | none => exact hb
  | some s =>
    by_cases hs : s = ""
    · exact absurd (by rw [hs]) ha
    · simp only [if_neg hs]
      exact hs

theorem getD_ne_empty (a : Option String) (b : String) (ha : a ≠ some "") (hb : b ≠ "") :
    a.getD b ≠ "" := by
  cases a with
  | none => exact hb
  | some s =>
    intro hc
    simp only [Option.getD_some] at hc
    exact ha (by rw [hc])

theorem mediaFields_title_ne (media : Option MediaObj)
    (h : ∀ m, media = some m → m.title ≠ some "" ∧ m.name ≠ some "") :
    (mediaFields media).title ≠ "" := by
  cases media with
  | none => simp [mediaFields]
  | some m =>
    obtain ⟨ht, hn⟩ := h m rfl
    simpa [mediaFields] using pyOr_ne_empty m.title (m.name.getD "Unknown") ht
      (getD_ne_empty m.name "Unknown" hn (by simp))

theorem batchApproveRun_map_fst (approve : Nat → Bool) :
    ∀ ids : List Nat, (batchApproveRun approve ids).map Prod.fst = ids
  | [] => rfl
  | i :: rest => by
    simp [batchApproveRun, batchApproveRun_map_fst approve rest]

theorem batchFailed_run (approve : Nat → Bool) :
    ∀ ids : List Nat,
      batchFailed (batchApproveRun approve ids) = ids.filter (fun i => !approve i)
  | [] => rfl
  | i :: rest => by
    have ih := batchFailed_run approve rest
    unfold batchFailed at ih ⊢
    cases h : approve i <;>
      simp [batchApproveRun, List.filter_cons, h, ih]

theorem batchSuccess_run (approve : Nat → Bool) :
    ∀ ids : List Nat,
      ((batchApproveRun approve ids).filter (fun p => p.2)).length
        = (ids.filter (fun i => approve i)).length
  | [] => rfl
  | i :: rest => by
    have ih := batchSuccess_run approve rest
    cases h : approve i <;>
      simp [batchApproveRun, List.filter_cons, h, ih]

theorem buttonApproveAll_counts (approveOk : Option Nat → Bool) :
    ∀ items : List RequestInfo,
      buttonApproveAll approveOk items
        = ((items.filter (fun r => approveOk r.id)).length,
           (items.filter (fun r => !approveOk r.id)).length)
  | [] => rfl
  | r :: rest => by
    have ih := buttonApproveAll_counts approveOk rest
    cases h : approveOk r.id <;>
      simp [buttonApproveAll, List.filter_cons, h, ih]

theorem processHighRated_calls (threshold : ℚ) (approveOk : Option Nat → Bool) :
    ∀ items : List RequestInfo,
      (processHighRated threshold approveOk items).1
        = items.filter (fun r => decide (threshold ≤ r.rating))
  | [] => rfl
  | r :: rest => by
    have ih := processHighRated_calls threshold approveOk rest
    by_cases h : threshold ≤ r.rating <;>
      simp [processHighRated, List.filter_cons, h, ih]

theorem processHighRated_audits (threshold : ℚ) (approveOk : Option Nat → Bool) :
    ∀ items : List RequestInfo,
      (processHighRated threshold approveOk items).2.map AuditEvent.request
        = items.filter (fun r => decide (threshold ≤ r.rating) && approveOk r.id)
  | [] => rfl
  | r :: rest => by
    have ih := processHighRated_audits threshold approveOk rest
    by_cases h : threshold ≤ r.rating
    · cases ho : approveOk r.id <;>
        simp [processHighRated, List.filter_cons, h, ho, ih]
    · simp [processHighRated, List.filter_cons, h, ih]

/-! ## Claim C9 -/

/-- Claim C9 (confirmed): the base address uses a scheme-bearing host
verbatim (plus the fixed `/api/v1` suffix, port ignored), and otherwise
synthesizes `scheme://host[:port]/api/v1`, omitting the port exactly when
it equals the scheme's conventional default; in particular
`("media.example.com", 443, tls)` and `("http://proxy/sub", 5055)` give
the two URLs of the claim. -/
theorem c9_base_address :
    (∀ (host : String) (port : Nat) (ssl : Bool),
      base_url host port ssl = specBuildBaseAddress host port ssl) ∧
    base_url "media.example.com" 443 true = "https://media.example.com/api/v1" ∧
    base_url "http://proxy/sub" 5055 false = "http://proxy/sub/api/v1" := by
  refine ⟨fun host port ssl => ?_, by decide, by decide⟩
  unfold base_url specBuildBaseAddress
  by_cases hc : (startsWithS host "http://" || startsWithS host "https://") = true
  · simp [hc]
  · cases ssl with
    | false =>
      by_cases hp : port = 80 <;> simp [hc, hp]
    | true =>
      by_cases hp : port = 443 <;> simp [hc, hp]

/-! ## Claim C5 -/

/-- Claim C5 counterexample: the error raised for a non-200, non-401
response does not carry the response body — two 500-responses with
different bodies map to the identical `ServiceError`, whose message holds
only the status code. -/
theorem c5_cex_body_not_carried :
    async_get_requests (.response 500 "detailed body A" {})
      = async_get_requests (.response 500 "detailed body B" {}) ∧
    async_get_requests (.response 500 "detailed body A" {})
      = .error (.service "API returned 500") := by
  exact ⟨by decide, by decide⟩

/-- Claim C5 (amended): `listRequests` fails with `AuthenticationError`
exactly on HTTP 401, with a `ServiceError` carrying only the HTTP status
code (not the body) on every other non-200 status, with `ConnectionError`
on timeout or transport failure, and returns the parsed body on 200. -/
theorem c5_list_requests (status : Nat) (body : String) (payload : ApiData) (msg : String) :
    async_get_requests (.response 401 body payload)
      = .error (.authentication "Invalid API key") ∧
    async_get_requests (.response 200 body payload) = .ok payload ∧
    (status ≠ 401 → status ≠ 200 →
      async_get_requests (.response status body payload)
        = .error (.service ("API returned " ++ toString status))) ∧
    async_get_requests .timeout = .error (.connection "Connection timeout") ∧
    async_get_requests (.clientError msg) = .error (.connection msg) := by
  refine ⟨rfl, rfl, fun h1 h2 => ?_, rfl, rfl⟩
  simp [async_get_requests, h1, h2]

/-- Witness for `c5_list_requests` at a concrete 503 response. -/
theorem c5_list_requests_w :
    async_get_requests (.response 503 "overloaded" {})
      = .error (.service ("API returned " ++ toString 503)) :=
  (c5_list_requests 503 "overloaded" {} "").2.2.1 (by decide) (by decide)

/-! ## Claim C4 -/

/-- Claim C4 (confirmed): when the list-requests call fails with any of
the three typed errors, the refresh cycle aborts with `UpdateFailed`
(recoverable), fires no event, and leaves the coordinator state — the
stored previous-pending-count and the published snapshot — unchanged. -/
theorem c4_fetch_failure (st : CoordState) (e : JellyseerrFailure) (oracle : Oracle) :
    runUpdate st oracle (.error e) = (st, [], .error ⟨e.msg⟩) := rfl

/-! ## Claim C1 -/

/-- Claim C1 (code bug): a fetched list containing a request with the
unknown status 7 is counted in `status_counts` under its own key, but the
per-request loop raises `KeyError` at `detailed_requests_by_status[7]`,
so the refresh cycle aborts with `UpdateFailed` instead of completing
with a catch-all bucket. -/
theorem c1_unknown_status_aborts :
    runUpdate ⟨0, none⟩ emptyOracle (.ok (some unknownStatusData))
      = (⟨0, none⟩, [], .error ⟨"Unexpected error: 7"⟩) ∧
    dictGetD (statusCounts (unknownStatusData.results.getD [])) 7 0 = 1 ∧
    alookup 7 initBuckets = none := by
  exact ⟨by decide, by decide, by decide⟩

/-! ## Claim C6 -/

/-- Claim C6 (confirmed): when the embedded media object carries a truthy
poster path under either spelling, enrichment performs no detail-endpoint
call and its result is independent of what the detail endpoint would
return — the embedded fields are used directly. -/
theorem c6_no_refetch (o₁ o₂ : Oracle) (req : RequestRecord)
    (h : hasEmbeddedPoster req = true) :
    enrichOne o₁ req = enrichOne o₂ req ∧
    (enrichOne o₁ req).2 = false ∧
    (enrichOne o₁ req).1 = enrichCore req none := by
  have hs : shouldFetch req = false := by
    cases hm : req.media with
    | none => simp [hasEmbeddedPoster, hm] at h
    | some m =>
      have h2 : truthyS (pyOrOpt m.posterPath m.poster_path) = true := by
        simpa [hasEmbeddedPoster, hm] using h
      simp [shouldFetch, posterUrlFromMedia, hm, h2]
  refine ⟨?_, ?_, ?_⟩ <;> simp [enrichOne, hs]

/-- Witness for `c6_no_refetch`: a request with an embedded poster (and a
tmdb id), compared under the empty and an answering oracle. -/
theorem c6_no_refetch_w :
    hasEmbeddedPoster posterRequest = true ∧
    (enrichOne emptyOracle posterRequest = enrichOne someDetailsOracle posterRequest ∧
     (enrichOne emptyOracle posterRequest).2 = false ∧
     (enrichOne emptyOracle posterRequest).1 = enrichCore posterRequest none) :=
  ⟨by decide, c6_no_refetch emptyOracle someDetailsOracle posterRequest (by decide)⟩

/-! ## Claim C7 -/

/-- Claim C7 (confirmed): batch approve attempts every id in order and
does not stop at a failure; the reported failure list is exactly the ids
whose approve call failed, the success count is the count of succeeding
ids (likewise for the approve-all button over the Pending bucket); for
`[1, 2, 3]` with only id 2 failing it reports two successes, failed ids
`[2]`, and id 3 is still attempted. -/
theorem c7_batch_approve :
    (∀ (approve : Nat → Bool) (ids : List Nat),
      (batchApproveRun approve ids).map Prod.fst = ids ∧
      batchFailed (batchApproveRun approve ids) = ids.filter (fun i => !approve i) ∧
      ((batchApproveRun approve ids).filter (fun p => p.2)).length
        = (ids.filter (fun i => approve i)).length) ∧
    (∀ (approveOk : Option Nat → Bool) (pending : List RequestInfo),
      buttonApproveAll approveOk pending
        = ((pending.filter (fun r => approveOk r.id)).length,
           (pending.filter (fun r => !approveOk r.id)).length)) ∧
    batchApproveRun (fun i => i != 2) [1, 2, 3] = [(1, true), (2, false), (3, true)] ∧
    batchFailed (batchApproveRun (fun i => i != 2) [1, 2, 3]) = [2] ∧
    ((batchApproveRun (fun i => i != 2) [1, 2, 3]).filter (fun p => p.2)).length = 2 := by
  refine ⟨fun approve ids => ⟨batchApproveRun_map_fst approve ids,
    batchFailed_run approve ids, batchSuccess_run approve ids⟩,
    fun approveOk pending => buttonApproveAll_counts approveOk pending,
    by decide, by decide, by decide⟩

/-! ## Claim C10 -/

/-- Claim C10 (confirmed): the rating rule attempts an approve exactly
for the event items with `rating >= threshold` (inclusive boundary) and
audits exactly the approved ones; concretely, with threshold 7.5
(`mkRat 15 2`) an item rated 7.5 is approved and an item rated 7.49
(`mkRat 749 100`) is not. -/
theorem c10_rating_rule :
    (∀ (threshold : ℚ) (approveOk : Option Nat → Bool) (items : List RequestInfo),
      (processHighRated threshold approveOk items).1
        = items.filter (fun r => decide (threshold ≤ r.rating)) ∧
      (processHighRated threshold approveOk items).2.map AuditEvent.request
        = items.filter (fun r => decide (threshold ≤ r.rating) && approveOk r.id)) ∧
    (processHighRated (mkRat 15 2) (fun _ => true) [item75, item749]).1 = [item75] ∧
    (processHighRated (mkRat 15 2) (fun _ => true) [item749]).1 = [] := by
  refine ⟨fun threshold approveOk items =>
    ⟨processHighRated_calls threshold approveOk items,
     processHighRated_audits threshold approveOk items⟩, by decide, by decide⟩

/-! ## Claim C3 -/

/-- Claim C3 counterexample: a request whose embedded media has
`name = ""` and no title (and no tmdb id, so no detail fetch) is enriched
with the empty-string title; the fallback when no title text exists at
all is the constant `"Unknown"`, not an identifier-based placeholder. -/
theorem c3_cex_empty_title :
    (enrichOne emptyOracle emptyNameRequest).1.title = "" ∧
    (enrichOne emptyOracle ({} : RequestRecord)).1.title = "Unknown" := by
  exact ⟨by decide, by decide⟩

/-- Claim C3 (amended): the enriched title falls back to the constant
placeholder `"Unknown"`; it is non-empty provided every `title` / `name`
field present in the embedded media and in the fetched details is
non-empty (a present empty-string `name` propagates into the title). -/
theorem c3_title_nonempty :
    (∀ (req : RequestRecord) (fetched : Option Details),
      (∀ m, req.media = some m → m.title ≠ some "" ∧ m.name ≠ some "") →
      (∀ d, fetched = some d → d.title ≠ some "" ∧ d.name ≠ some "") →
      (enrichCore req fetched).title ≠ "") ∧
    (enrichCore ({} : RequestRecord) none).title = "Unknown" := by
  constructor
  · intro req fetched h1 h2
    cases fetched with
    | none =>
      have he : (enrichCore req none).title = (mediaFields req.media).title := rfl
      rw [he]
      exact mediaFields_title_ne req.media h1
    | some d =>
      obtain ⟨ht, hn⟩ := h2 d rfl
      have he : (enrichCore req (some d)).title
          = pyOr d.title (d.name.getD (mediaFields req.media).title) := rfl
      rw [he]
      exact pyOr_ne_empty _ _ ht
        (getD_ne_empty _ _ hn (mediaFields_title_ne req.media h1))
  · decide

/-- Witness for `c3_title_nonempty` on a request with a real title. -/
theorem c3_title_nonempty_w : (enrichCore titledRequest none).title ≠ "" :=
  c3_title_nonempty.1 titledRequest none
    (fun m hm => by
      have h0 : some ({ title := some "Inception" } : MediaObj) = some m := hm
      injection h0 with h0
      subst h0
      exact ⟨by decide, by decide⟩)
    (fun d hd => by cases hd)

/-! ## Claim C8 -/

/-- Claim C8 counterexample: turning the switch on twice and then off
leaves the listener registered by the first enable subscribed (its
unsubscribe handle was overwritten), although the sequence ends with a
disable and the switch reports off. -/
theorem c8_cex_double_enable :
    (runOps initSwitch [Op.turnOn, Op.turnOn, Op.turnOff]).active = [0] ∧
    (runOps initSwitch [Op.turnOn, Op.turnOn, Op.turnOff]).is_on = false := by
  exact ⟨by decide, by decide⟩

theorem stopMonitoring_clears (s : SwitchState) (hc : consistentSwitch s) :
    (stopMonitoring s).active = [] ∧ (stopMonitoring s).handle = none := by
  unfold consistentSwitch at hc
  cases hh : s.handle with
  | none =>
    rw [hh] at hc
    simp only [Option.elim] at hc
    simp [stopMonitoring, hh, hc]
  | some h =>
    rw [hh] at hc
    simp only [Option.elim] at hc
    simp [stopMonitoring, hh, hc]

theorem guarded_runOps_consistent :
    ∀ (ops : List Op) (s : SwitchState), consistentSwitch s → guardedOps s ops = true →
      consistentSwitch (runOps s ops)
  | [], _, hc, _ => hc
  | Op.turnOn :: rest, s, hc, hg => by
    have hsplit : s.handle.isNone = true ∧ guardedOps (applyOp s Op.turnOn) rest = true := by
      simpa [guardedOps, Bool.and_eq_true] using hg
    have hnone : s.handle = none := Option.isNone_iff_eq_none.mp hsplit.1
    have hact : s.active = [] := by
      unfold consistentSwitch at hc
      rw [hnone] at hc
      simpa using hc
    have hc2 : consistentSwitch (applyOp s Op.turnOn) := by
      simp [consistentSwitch, applyOp, startMonitoring, hact]
    exact guarded_runOps_consistent rest (applyOp s Op.turnOn) hc2 hsplit.2
  | Op.turnOff :: rest, s, hc, hg => by
    have hcc : consistentSwitch { s with is_on := false } := hc
    obtain ⟨h1, h2⟩ := stopMonitoring_clears _ hcc
    have hc2 : consistentSwitch (applyOp s Op.turnOff) := by
      simp [consistentSwitch, applyOp, h1, h2]
    exact guarded_runOps_consistent rest (applyOp s Op.turnOff) hc2 hg
  | Op.teardown :: rest, s, hc, hg => by
    obtain ⟨h1, h2⟩ := stopMonitoring_clears _ hc
    have hc2 : consistentSwitch (applyOp s Op.teardown) := by
      simp [consistentSwitch, applyOp, h1, h2]
    exact guarded_runOps_consistent rest (applyOp s Op.teardown) hc2 hg

theorem guardedOps_append (l₂ : List Op) :
    ∀ (l₁ : List Op) (s : SwitchState),
      guardedOps s (l₁ ++ l₂) = (guardedOps s l₁ && guardedOps (runOps s l₁) l₂)
  | [], s => by simp [guardedOps, runOps]
  | Op.turnOn :: rest, s => by
    have ih := guardedOps_append l₂ rest (applyOp s Op.turnOn)
    show (s.handle.isNone && guardedOps (applyOp s Op.turnOn) (rest ++ l₂))
        = ((s.handle.isNone && guardedOps (applyOp s Op.turnOn) rest)
            && guardedOps (runOps (applyOp s Op.turnOn) rest) l₂)
    rw [ih, Bool.and_assoc]
  | Op.turnOff :: rest, s => guardedOps_append l₂ rest (applyOp s Op.turnOff)
  | Op.teardown :: rest, s => guardedOps_append l₂ rest (applyOp s Op.teardown)

/-- Claim C8 (amended): for every sequence of operations in which enable
is never invoked while a subscription handle is already held, ending with
a disable or with teardown, no bus listener remains subscribed. -/
theorem c8_no_dangling (ops : List Op) (final : Op)
    (hg : guardedOps initSwitch (ops ++ [final]) = true)
    (hf : final = Op.turnOff ∨ final = Op.teardown) :
    (runOps initSwitch (ops ++ [final])).active = [] := by
  rw [guardedOps_append, Bool.and_eq_true] at hg
  obtain ⟨hg1, hg2⟩ := hg
  have hcons : consistentSwitch (runOps initSwitch ops) :=
    guarded_runOps_consistent ops initSwitch (by simp [consistentSwitch, initSwitch]) hg1
  have hrun : runOps initSwitch (ops ++ [final]) = applyOp (runOps initSwitch ops) final := by
    simp [runOps, List.foldl_append]
  rw [hrun]
  rcases hf with rfl | rfl
  · have hcc : consistentSwitch { (runOps initSwitch ops) with is_on := false } := hcons
    exact (stopMonitoring_clears _ hcc).1
  · exact (stopMonitoring_clears _ hcons).1

/-- Witness for `c8_no_dangling`: one enable followed by one disable. -/
theorem c8_no_dangling_w :
    guardedOps initSwitch ([Op.turnOn] ++ [Op.turnOff]) = true ∧
    (runOps initSwitch ([Op.turnOn] ++ [Op.turnOff])).active = [] :=
  ⟨by decide, c8_no_dangling [Op.turnOn] Op.turnOff (by decide) (Or.inl rfl)⟩

/-! ## Association-list lemmas for the classification fold -/

theorem alookup_aupd_self {β : Type} (s : Nat) (v : β) :
    ∀ (bs : List (Nat × β)) (lst : β), alookup s bs = some lst →
      alookup s (aupd s v bs) = some v
  | [], _, h => by simp [alookup] at h
  | p :: ps, lst, h => by
    by_cases hp : p.1 = s
    · simp [aupd, hp, alookup]
    · have h2 : alookup s ps = some lst := by simpa [alookup, hp] using h
      simp [aupd, hp, alookup, alookup_aupd_self s v ps lst h2]

theorem alookup_aupd_other {β : Type} (k s : Nat) (v : β) (hks : k ≠ s) :
    ∀ bs : List (Nat × β), alookup k (aupd s v bs) = alookup k bs
  | [] => rfl
  | p :: ps => by
    by_cases hp : p.1 = s
    · have hsk : s ≠ k := fun hc => hks hc.symm
      simp [aupd, hp, alookup, hsk]
    · simp [aupd, hp, alookup, alookup_aupd_other k s v hks ps]

theorem isSome_alookup_aupd {β : Type} (s : Nat) (v : β) (bs : List (Nat × β)) (lst : β)
    (hs : alookup s bs = some lst) (k : Nat) :
    (alookup k (aupd s v bs)).isSome = (alookup k bs).isSome := by
  by_cases hk : k = s
  · subst hk
    rw [alookup_aupd_self k v bs lst hs, hs]
    rfl
  · rw [alookup_aupd_other k s v hk bs]

/-- The per-request classification fold: every request is enriched; the
recent list receives the first five items; each status bucket receives
the first ten items of its status, in server order. -/
theorem processAll (oracle : Oracle) :
    ∀ (rs : List RequestRecord) (recent : List RequestInfo)
      (bs : List (Nat × List RequestInfo)),
      (∀ r ∈ rs, (alookup (statusOf r) bs).isSome = true) →
      ∃ bs₂,
        List.foldlM (processOne oracle) (recent, bs) rs
          = Except.ok (recent ++ ((rs.map (infoOf oracle)).take (5 - recent.length)), bs₂) ∧
        ∀ k, alookup k bs₂
          = (alookup k bs).map (fun l =>
              l ++ (((rs.filter (fun r => decide (statusOf r = k))).map
                (infoOf oracle)).take (10 - l.length)))
  | [], recent, bs, _ => by
    refine ⟨bs, ?_, fun k => ?_⟩
    · simp only [List.foldlM_nil, List.map_nil, List.take_nil, List.append_nil]
      rfl
    · cases alookup k bs <;> simp
  | r :: rs, recent, bs, h => by
    obtain ⟨lst, hlst⟩ := Option.isSome_iff_exists.mp (h r (List.mem_cons_self r rs))
    have hsome₁ : ∀ r' ∈ rs,
        (alookup (statusOf r')
          (if lst.length < 10 then aupd (statusOf r) (lst ++ [infoOf oracle r]) bs else bs)).isSome
          = true := by
      intro r' hr'
      have hbase := h r' (List.mem_cons_of_mem r hr')
      by_cases hl : lst.length < 10
      · rw [if_pos hl,
          isSome_alookup_aupd (statusOf r) (lst ++ [infoOf oracle r]) bs lst hlst]
        exact hbase
      · rw [if_neg hl]
        exact hbase
    obtain ⟨bs₂, hfold, hbuck⟩ := processAll oracle rs
      (if recent.length < 5 then recent ++ [infoOf oracle r] else recent)
      (if lst.length < 10 then aupd (statusOf r) (lst ++ [infoOf oracle r]) bs else bs)
      hsome₁
    refine ⟨bs₂, ?_, ?_⟩
    · have hstep : processOne oracle (recent, bs) r
          = Except.ok
            (if recent.length < 5 then recent ++ [infoOf oracle r] else recent,
             if lst.length < 10 then aupd (statusOf r) (lst ++ [infoOf oracle r]) bs else bs) := by
        simp [processOne, hlst]
      rw [List.foldlM_cons, hstep]
      show List.foldlM (processOne oracle) _ rs = _
      rw [hfold]
      by_cases h5 : recent.length < 5
      · rw [if_pos h5]
        have hlen : (recent ++ [infoOf oracle r]).length = recent.length + 1 := by simp
        rw [hlen, List.map_cons,
          show (5 - recent.length) = (5 - (recent.length + 1)) + 1 by omega,
          List.take_succ_cons]
        simp
      · rw [if_neg h5]
        have h0 : 5 - recent.length = 0 := by omega
        simp [h0]
    · intro k
      rw [hbuck k]
      by_cases hk : k = statusOf r
      · have hfilter : (r :: rs).filter (fun x => decide (statusOf x = k))
            = r :: rs.filter (fun x => decide (statusOf x = k)) := by
          simp [List.filter_cons, hk.symm]
        rw [hfilter]
        by_cases hl : lst.length < 10
        · rw [if_pos hl]
          have ha : alookup k (aupd (statusOf r) (lst ++ [infoOf oracle r]) bs)
              = some (lst ++ [infoOf oracle r]) := by
            rw [hk]
            exact alookup_aupd_self (statusOf r) (lst ++ [infoOf oracle r]) bs lst hlst
          have hb : alookup k bs = some lst := by rw [hk]; exact hlst
          rw [ha, hb]
          simp only [Option.map_some']
          have h10 : (10 - lst.length) = (10 - (lst.length + 1)) + 1 := by omega
          rw [List.map_cons, h10, List.take_succ_cons]
          simp
        · rw [if_neg hl]
          have hb : alookup k bs = some lst := by rw [hk]; exact hlst
          rw [hb]
          have h0 : 10 - lst.length = 0 := by omega
          simp [h0]
      · have hk2 : ¬statusOf r = k := fun hc => hk hc.symm
        have hfilter : (r :: rs).filter (fun x => decide (statusOf x = k))
            = rs.filter (fun x => decide (statusOf x = k)) := by
          simp [List.filter_cons, hk2]
        rw [hfilter]
        by_cases hl : lst.length < 10
        · rw [if_pos hl, alookup_aupd_other k (statusOf r) (lst ++ [infoOf oracle r]) hk bs]
        · rw [if_neg hl]

/-! ## Status-count dictionary lemmas -/

theorem alookup_map_incr (v : Nat) :
    ∀ (d : List (Nat × Nat)) (k : Nat),
      alookup k (d.map (fun p => if p.1 = v then (p.1, p.2 + 1) else p))
        = if k = v then (alookup k d).map (fun x => x + 1) else alookup k d
  | [], k => by by_cases hk : k = v <;> simp [alookup, hk]
  | p :: ps, k => by
    have ih := alookup_map_incr v ps k
    by_cases hp : p.1 = v <;> by_cases hpk : p.1 = k
    · have hk : k = v := by rw [← hpk, hp]
      simp [alookup, hp, hpk, hk]
    · have hk : ¬k = v := fun hc => hpk (by rw [hp, ← hc])
      have hvk : ¬v = k := fun hc => hk hc.symm
      simp [alookup, hp, hpk, hk, hvk, ih]
    · have hk : ¬k = v := fun hc => hp (by rw [hpk, hc])
      simp [alookup, hp, hpk, hk]
    · simp [alookup, hp, hpk, ih]

theorem alookup_append_new (v : Nat) :
    ∀ (d : List (Nat × Nat)) (k : Nat), alookup v d = none →
      alookup k (d ++ [(v, 1)]) = if k = v then some 1 else alookup k d
  | [], k, _ => by
    by_cases hk : k = v
    · simp [alookup, hk]
    · have hvk : ¬v = k := fun hc => hk hc.symm
      simp [alookup, hk, hvk]
  | p :: ps, k, h => by
    have hp : ¬p.1 = v := by
      intro hc
      simp [alookup, hc] at h
    have hrest : alookup v ps = none := by simpa [alookup, hp] using h
    by_cases hpk : p.1 = k
    · have hk : ¬k = v := fun hc => hp (by rw [hpk, hc])
      simp [alookup, hpk, hk]
    · simp [alookup, hpk, alookup_append_new v ps k hrest]

theorem dictGetD_dictIncr (d : List (Nat × Nat)) (k v : Nat) :
    dictGetD (dictIncr d v) k 0 = dictGetD d k 0 + (if k = v then 1 else 0) := by
  unfold dictIncr dictGetD
  by_cases hsome : (alookup v d).isSome = true
  · obtain ⟨w, hw⟩ := Option.isSome_iff_exists.mp hsome
    rw [if_pos hsome, alookup_map_incr]
    by_cases hk : k = v
    · subst hk
      simp [hw]
    · simp [hk]
  · have hnone : alookup v d = none := by
      cases hv : alookup v d
      · rfl
      · rw [hv] at hsome
        exact absurd rfl hsome
    rw [if_neg hsome, alookup_append_new v d k hnone]
    by_cases hk : k = v
    · subst hk
      simp [hnone]
    · simp [hk]

theorem statusCounts_getD (k : Nat) :
    ∀ (rs : List RequestRecord) (d : List (Nat × Nat)),
      dictGetD (rs.foldl (fun acc r => dictIncr acc (statusOf r)) d) k 0
        = dictGetD d k 0 + (rs.filter (fun r => decide (statusOf r = k))).length
  | [], d => by simp
  | r :: rs, d => by
    have ih := statusCounts_getD k rs (dictIncr d (statusOf r))
    rw [List.foldl_cons, ih, dictGetD_dictIncr, List.filter_cons]
    by_cases hk : statusOf r = k
    · rw [if_pos (show (decide (statusOf r = k)) = true by simp [hk]),
        if_pos (show k = statusOf r from hk.symm), List.length_cons]
      omega
    · rw [if_neg (show ¬(decide (statusOf r = k)) = true by simp [hk]),
        if_neg (show ¬k = statusOf r from fun hc => hk hc.symm)]
      omega

/-! ## Claim C2 -/

/-- Claim C2 counterexample: starting from a previous Pending count of 0,
a cycle with eleven Pending requests fires the notification with
`count = 11` but carries only 10 items — the Pending bucket is capped at
10, so the carried item count is not the difference. -/
theorem c2_cex_capped_at_ten :
    (runUpdate ⟨0, none⟩ emptyOracle (Except.ok (some pend11Data))).2.1.map
      (fun e => (e.count, e.requests.length)) = [(11, 10)] ∧ (10 : Nat) ≠ 11 := by
  exact ⟨by decide, by decide⟩

/-- Claim C2 (amended): the "new pending items" notification fires iff
the current Pending count strictly exceeds the previous one; it carries
the difference as `count`, and `min (difference) 10` items — the head of
the current Pending bucket, which is capped at 10 entries. -/
theorem c2_delta (st : CoordState) (oracle : Oracle) (data : ApiData)
    (h : ∀ r ∈ data.results.getD [], statusOf r ∈ ([1, 2, 3, 4, 5] : List Nat)) :
    (runUpdate st oracle (Except.ok (some data))).2.1
      = (if st.last_pending_count < pendingCountOf data then
           [{ count := pendingCountOf data - st.last_pending_count,
              requests := (pendingOf oracle data).take
                (min (pendingCountOf data - st.last_pending_count) 10) }]
         else []) ∧
    ((runUpdate st oracle (Except.ok (some data))).2.1 ≠ []
      ↔ st.last_pending_count < pendingCountOf data) ∧
    (∀ e ∈ (runUpdate st oracle (Except.ok (some data))).2.1,
      e.count = pendingCountOf data - st.last_pending_count ∧
      e.requests.length = min (pendingCountOf data - st.last_pending_count) 10) := by
  have hkeys : ∀ r ∈ data.results.getD [], (alookup (statusOf r) initBuckets).isSome = true := by
    intro r hr
    have hm := h r hr
    simp only [List.mem_cons, List.not_mem_nil, or_false] at hm
    rcases hm with h1 | h1 | h1 | h1 | h1 <;> rw [h1] <;> decide
  obtain ⟨bs₂, hfold, hbuck⟩ := processAll oracle (data.results.getD []) [] initBuckets hkeys
  have hpend : alookup 1 bs₂ = some ((pendingOf oracle data).take 10) := by
    rw [hbuck 1]
    have h0 : alookup 1 initBuckets = some [] := rfl
    rw [h0]
    simp [pendingOf]
  have hcur : dictGetD (statusCounts (data.results.getD [])) 1 0 = pendingCountOf data := by
    unfold statusCounts
    rw [statusCounts_getD]
    simp [dictGetD, alookup, pendingCountOf]
  have hplen : (pendingOf oracle data).length = pendingCountOf data := by
    simp [pendingOf, pendingCountOf]
  have hE : (runUpdate st oracle (Except.ok (some data))).2.1
      = (if st.last_pending_count < pendingCountOf data then
           [{ count := pendingCountOf data - st.last_pending_count,
              requests := (pendingOf oracle data).take
                (min (pendingCountOf data - st.last_pending_count) 10) }]
         else []) := by
    simp only [runUpdate]
    rw [hfold]
    simp only [hcur, hpend, Option.getD_some, List.take_take]
  refine ⟨hE, ?_, ?_⟩
  · rw [hE]
    by_cases hlt : st.last_pending_count < pendingCountOf data
    · simp [hlt]
    · simp [hlt]
  · intro e he
    rw [hE] at he
    by_cases hlt : st.last_pending_count < pendingCountOf data
    · rw [if_pos hlt] at he
      simp only [List.mem_singleton] at he
      subst he
      refine ⟨rfl, ?_⟩
      rw [List.length_take, hplen]
      omega
    · rw [if_neg hlt] at he
      cases he

/-- Witness for `c2_delta`: two Pending requests against a previous count
of zero make the notification fire. -/
theorem c2_delta_w :
    (runUpdate ⟨0, none⟩ emptyOracle (Except.ok (some pendTwoData))).2.1 ≠ [] :=
  ((c2_delta ⟨0, none⟩ emptyOracle pendTwoData (by decide)).2.1).mpr (by decide)

end Jellyseerr
